import Mathlib

/-
Verification of the Presence & Distance Monitoring Engine of
complete-network-monitor.py, as a shallow embedding in Lean 4.

Python floats are modelled by ℚ for the values the program stores and
compares (distances, RSSI, calibration), and by ℝ where the code applies
the transcendental function `math.pow` (the RSSI→distance formula).
Python `None` is modelled by `Option`; `datetime.now().isoformat()`
timestamps are supplied by the environment.  The device dictionary
`self.devices` (a Python dict keyed by IP, insertion ordered) is modelled
as an association list `List (String × Device)`; dict field lookups with
`.get` defaults are modelled by total fields or `Option` fields with
`Option.getD`.
-/

set_option autoImplicit false

namespace NetMon

/-- An ISO timestamp, kept at the logical level the code uses it at:
`date` is what `strftime` of the pattern year-month-day extracts and
`time` what the hours-minutes-seconds pattern extracts. -/
structure Timestamp where
  date : String
  time : String
deriving DecidableEq

/-- The process-wide calibration dictionary `self.calibration`. -/
structure Calibration where
  referenceRSSI : ℚ
  pathLossExponent : ℚ
  distanceThreshold : ℚ
deriving DecidableEq

/-- One device record of `self.devices`.  Keys that the Python code reads
with a `.get` default are total fields; keys that can be absent or `None`
are `Option` fields. -/
structure Device where
  ip : String
  mac : Option String
  hostname : Option String
  vendor : Option String
  custom_name : Option String
  first_seen : Timestamp
  last_seen : Option Timestamp
  monitored : Bool
  device_type : String
  online : Bool
  rssi : Option ℚ
  estimated_distance : Option ℚ
deriving DecidableEq

/-- One alert dictionary as built by `add_alert`.  Note the record has no
distance field of its own: only identity/classification snapshots and an
optional message. -/
structure Alert where
  timestamp : Timestamp
  type : String
  ip : String
  mac : Option String
  device_name : String
  device_type : String
  message : Option String
deriving DecidableEq

/-- One data row of the attendance CSV written by `log_attendance`
(logical schema; the one-time header line of the file is not a data
row). -/
structure Row where
  timestamp : Timestamp
  type : String
  name : String
  ip : String
  mac : String
  device_type : String
  message : String
deriving DecidableEq

/-- The mutable state of a `CompleteNetworkMonitor` instance, together
with the durable files it writes: `saved_devices`/`saved_alerts` mirror
`device_monitor.json`/`attendance_alerts.json` as last written by
`save_data`, and `attendance` mirrors the data rows of
`attendance_log.csv`. -/
structure MonState where
  devices : List (String × Device)
  scanning : Bool
  monitoring : Bool
  distance_mode : Bool
  alerts : List Alert
  calibration : Calibration
  saved_devices : List (String × Device)
  saved_alerts : List Alert
  attendance : List Row
deriving DecidableEq

/-! ### Association-list primitives for the device dictionary -/

/-- `self.devices[ip]` / `ip in self.devices`, first match. -/
def lookupIp (ip : String) : List (String × Device) → Option Device
  | [] => none
  | e :: rest => if e.1 = ip then some e.2 else lookupIp ip rest

/-- In-place update `self.devices[ip] = f(self.devices[ip])` of an
existing key. -/
def mapIp (ip : String) (f : Device → Device) : List (String × Device) → List (String × Device)
  | [] => []
  | e :: rest => if e.1 = ip then (e.1, f e.2) :: rest else e :: mapIp ip f rest

/-! ### Distance estimator -/

/-- `get_zone` (source lines 1299–1310).  The Python test `if not distance`
is truthiness: it holds for `None` and for the float `0.0`, so both fall
into the "unknown" branch. -/
def get_zone : Option ℚ → String
  | none => "unknown"
  | some d =>
      if d = 0 then "unknown"
      else if d < 10 then "on-site"
      else if d < 30 then "near-site"
      else if d < 50 then "leaving"
      else "away"

/-- Python `round(x)` on the reals: round half to even, the rounding of the Python 3
built-in. -/
noncomputable def pyRound (x : ℝ) : ℤ :=
  if x - ⌊x⌋ < 1/2 then ⌊x⌋
  else if 1/2 < x - ⌊x⌋ then ⌊x⌋ + 1
  else if Even ⌊x⌋ then ⌊x⌋ else ⌊x⌋ + 1

/-- Python `round(x, 1)`: one decimal place. -/
noncomputable def roundTo1 (x : ℝ) : ℝ :=
  (pyRound (10 * x) : ℝ) / 10

/-- `calculate_distance` (source lines 1292–1297).  The Python guard
`if rssi and rssi != 0` rejects `None` and `0`; otherwise the code
computes `10 ** ((referenceRSSI - rssi) / (10 * pathLossExponent))`
with `math.pow` and rounds to one decimal. -/
noncomputable def calculate_distance (cal : Calibration) (rssi : Option ℚ) : Option ℝ :=
  match rssi with
  | none => none
  | some r =>
      if r = 0 then none
      else some (roundTo1 ((10 : ℝ) ^ (((cal.referenceRSSI : ℝ) - (r : ℝ)) / (10 * (cal.pathLossExponent : ℝ)))))

/-- The RSSI→distance formula exactly as the specification words it:
`distance = 10 ^ ((referenceRSSI − rssi) / (10 × pathLossExponent))`,
rounded to one decimal. -/
noncomputable def spec_distance_formula (referenceRSSI pathLossExponent r : ℚ) : ℝ :=
  roundTo1 ((10 : ℝ) ^ (((referenceRSSI : ℝ) - (r : ℝ)) / (10 * (pathLossExponent : ℝ))))

/-- The default calibration set in `__init__`. -/
def defaultCalibration : Calibration :=
  { referenceRSSI := -40, pathLossExponent := 2, distanceThreshold := 50 }

/-! ### Persistence and the alert ledger -/

/-- `save_data` (source lines 1151–1157): rewrite the device and alert
JSON files from the in-memory state. -/
def save_data (s : MonState) : MonState :=
  { s with saved_devices := s.devices, saved_alerts := s.alerts }

/-- The alert dictionary built at the top of `add_alert`
(source lines 1429–1439). -/
def mkAlert (now : Timestamp) (d : Device) (ty : String) (msg : Option String) : Alert :=
  { timestamp := now, type := ty, ip := d.ip, mac := d.mac,
    device_name := d.custom_name.getD (d.hostname.getD ("Unknown")),
    device_type := d.device_type, message := msg }

/-- The CSV data row written by `log_attendance` (source lines 1463–1471). -/
def alertRow (a : Alert) : Row :=
  { timestamp := a.timestamp, type := a.type, name := a.device_name,
    ip := a.ip, mac := a.mac.getD (""), device_type := a.device_type,
    message := a.message.getD ("") }

/-- `log_attendance` (source lines 1451–1471): append one data row to the
attendance CSV.  The one-time header line the code writes when the file
does not yet exist is part of the file format, not a data row. -/
def log_attendance (s : MonState) (a : Alert) : MonState :=
  { s with attendance := s.attendance ++ [alertRow a] }

/-- First step of `add_alert`: `self.alerts.insert(0, alert)` — the alert
is now in the list `/alerts` readers see. -/
def add_alert_inserted (s : MonState) (a : Alert) : MonState :=
  { s with alerts := a :: s.alerts }

/-- Second step of `add_alert`: `self.alerts = self.alerts[:1000]`. -/
def add_alert_truncated (s : MonState) : MonState :=
  { s with alerts := s.alerts.take 1000 }

/-- `add_alert` (source lines 1427–1449), in the order of the source: insert at
the front of the in-memory list, truncate to 1000, append the CSV row,
persist. -/
def add_alert (s : MonState) (now : Timestamp) (d : Device) (ty : String) (msg : Option String) : MonState :=
  save_data (log_attendance (add_alert_truncated (add_alert_inserted s (mkAlert now d ty msg))) (mkAlert now d ty msg))

/-! ### The update-device command -/

inductive UpdateResult where
  | ok
  | not_found
deriving DecidableEq

/-- The `/update_device` handler (source lines 1535–1549): a known IP has
its `custom_name`, `monitored` and `device_type` fields overwritten and
the state persisted; an unknown IP is rejected with a 404 and nothing
changes. -/
def update_device (s : MonState) (ip name : String) (mon : Bool) (dtype : String) : MonState × UpdateResult :=
  match lookupIp ip s.devices with
  | some _ =>
      (save_data { s with devices := mapIp ip (fun d =>
          { d with custom_name := some name, monitored := mon, device_type := dtype }) s.devices },
       UpdateResult.ok)
  | none => (s, UpdateResult.not_found)

/-! ### The attendance export -/

/-- One row of the `/export_attendance` CSV (logical schema: the Distance
cell is empty exactly when the `Option` is `none`, and shows the number
with an `m` suffix otherwise). -/
structure ExportRow where
  time : String
  action : String
  name : String
  device_type : String
  ip : String
  mac : String
  distance : Option ℚ
  message : String
deriving DecidableEq

/-- The row `export_attendance` writes for one alert (source lines
1589–1604).  The Distance cell is looked up from the *current* registry:
the device is fetched from `monitor.devices` by the IP of the alert with an
empty-dict default, its distance field with an empty default, and the cell is empty
whenever that value is falsy (device gone, key absent, `None`, or `0.0`).
All other cells come from the alert record itself. -/
def export_row (s : MonState) (a : Alert) : ExportRow :=
  { time := a.timestamp.time,
    action := a.type.toUpper,
    name := a.device_name,
    device_type := a.device_type,
    ip := a.ip,
    mac := a.mac.getD (""),
    distance :=
      match (lookupIp a.ip s.devices).bind Device.estimated_distance with
      | some q => if q = 0 then none else some q
      | none => none,
    message := a.message.getD ("") }

/-- `/export_attendance` (source lines 1576–1610): the alerts whose
timestamp falls on the requested calendar date, in ledger order, rendered
by `export_row`. -/
def export_attendance (s : MonState) (date : String) : List ExportRow :=
  (s.alerts.filter (fun a => decide (a.timestamp.date = date))).map (export_row s)

/-! ### The scan cycle -/

/-- What the scan consumes from outside the engine: the local /24 base
from `get_local_network`, per-host reachability from `ping`, identity
resolution from `get_mac`/`get_hostname`, the latency-derived RSSI from
`ping_with_stats` (which always returns an integer, defaulting to −70),
and the wall clock. -/
structure ScanEnv where
  base : String
  ping : String → Bool
  mac_of : String → Option String
  hostname_of : String → Option String
  rssi_of : String → ℚ
  now : Timestamp

/-- The `MAC_VENDORS` table (source lines 1094–1111). -/
def MAC_VENDORS : List (String × String) :=
  [("60:CF:84", "ASUS"), ("0C:C4:13", "Google"), ("1C:BF:C0", "TP-Link"),
   ("48:B0:2D", "NVIDIA Corporation"), ("78:80:38", "Samsung Electronics"),
   ("04:D9:F5", "Apple Inc."), ("00:50:56", "VMware"), ("F0:D4:15", "Realtek"),
   ("04:7C:16", "Realtek"), ("00:24:27", "ASUS"), ("0A:00:27", "VirtualBox"),
   ("F2:D4:15", "Microsoft"), ("00:0C:29", "VMware"), ("DC:A6:32", "Raspberry Pi"),
   ("B8:27:EB", "Raspberry Pi"), ("E4:5F:01", "Raspberry Pi")]

def lookupStr (k : String) : List (String × String) → Option String
  | [] => none
  | e :: rest => if e.1 = k then some e.2 else lookupStr k rest

/-- `get_vendor` (source lines 1159–1165): `if not mac` is truthiness, so
`None` and the empty string both yield `None`; otherwise the first eight
characters (three octets) index the vendor table. -/
def get_vendor (mac : Option String) : Option String :=
  match mac with
  | none => none
  | some m => if m = "" then none else lookupStr (m.take 8) MAC_VENDORS

/-- Python `int()` on a float: truncation toward zero. -/
def pyInt (q : ℚ) : ℤ := if q < 0 then -((-q).floor) else q.floor

/-- Python `abs()` on a float. -/
def pyAbs (q : ℚ) : ℚ := if q < 0 then -q else q

/-- Python truthiness of an optional float: `None` and `0.0` are falsy. -/
def truthyQ : Option ℚ → Bool
  | none => false
  | some q => decide (q ≠ 0)

/-- The device dictionary created for a newly discovered host (source
lines 1361–1374); `online`/`last_seen` are filled in right afterwards by
the lines modelled in `mark_online`. -/
def newDevice (env : ScanEnv) (ip : String) : Device :=
  { ip := ip, mac := env.mac_of ip, hostname := env.hostname_of ip,
    vendor := get_vendor (env.mac_of ip), custom_name := none,
    first_seen := env.now, last_seen := none, monitored := false,
    device_type := "employee", online := false, rssi := none,
    estimated_distance := none }

/-- `if ip not in self.devices: self.devices[ip] = {...}` — a Python dict
assignment to a fresh key appends at the end of the insertion order. -/
def ensure_device (env : ScanEnv) (s : MonState) (ip : String) : MonState :=
  match lookupIp ip s.devices with
  | some _ => s
  | none => { s with devices := s.devices ++ [(ip, newDevice env ip)] }

/-- Set the online flag and last_seen of the probed device to True / now
(source lines 1376–1377). -/
def mark_online (env : ScanEnv) (s : MonState) (ip : String) : MonState :=
  { s with devices := mapIp ip (fun d =>
      { d with online := true, last_seen := some env.now }) s.devices }

/-- Store rssi and estimated_distance on the probed device
(source lines 1384–1385). -/
def set_distance (dist : Option ℚ) (env : ScanEnv) (s : MonState) (ip : String) : MonState :=
  { s with devices := mapIp ip (fun d =>
      { d with rssi := some (env.rssi_of ip), estimated_distance := dist }) s.devices }

/-- The message of a distance alert (source line 1396). -/
def distance_message (ip : String) (dev : Device) (pz nz : String) (prev nd : ℚ) : String :=
  (dev.custom_name.getD (dev.hostname.getD ip)) ++ " moved from " ++ pz ++ " to " ++ nz ++
    " (" ++ toString (pyInt prev) ++ "m → " ++ toString (pyInt nd) ++ "m)"

/-- The distance-change alert check (source lines 1387–1402).  Note the
condition tests `self.monitoring`, the truthiness of the previous and new
distances, the 10-meter change and the zone change — but never the
per-device `monitored` flag.  The threshold beep on line 1401 is an
external sound effect with no engine state. -/
def distance_alert_check (env : ScanEnv) (pd : String → Option ℚ) (dist : Option ℚ)
    (s : MonState) (ip : String) : MonState :=
  if s.monitoring && truthyQ (pd ip) && truthyQ dist then
    if 10 < pyAbs (dist.getD 0 - (pd ip).getD 0) then
      if get_zone (some ((pd ip).getD 0)) ≠ get_zone (some (dist.getD 0)) then
        match lookupIp ip s.devices with
        | some dev =>
            add_alert s env.now dev ("distance")
              (some (distance_message ip dev (get_zone (some ((pd ip).getD 0)))
                (get_zone (some (dist.getD 0))) ((pd ip).getD 0) (dist.getD 0)))
        | none => s
      else s
    else s
  else s

/-- Handling of one candidate address inside the sweep (source lines
1354–1402).  `cd` is the RSSI→distance estimator the scan consults —
`calculate_distance` of the live calibration, whose real-exponentiation
model is kept separate so that the scan stays executable; the behaviour of the scan
is proved for every estimator. -/
def scan_host (cd : ℚ → Option ℚ) (env : ScanEnv) (pd : String → Option ℚ)
    (s : MonState) (ip : String) : MonState :=
  if env.ping ip then
    if (mark_online env (ensure_device env s ip) ip).distance_mode then
      distance_alert_check env pd (cd (env.rssi_of ip))
        (set_distance (cd (env.rssi_of ip)) env (mark_online env (ensure_device env s ip) ip) ip) ip
    else mark_online env (ensure_device env s ip) ip
  else s

/-- Reset the online flag of every known device to False
(source lines 1348–1350). -/
def clear_online (s : MonState) : MonState :=
  { s with devices := s.devices.map (fun e => (e.1, { e.2 with online := false })) }

/-- The `previous_online` snapshot (source line 1345), as the lookup
function the later passes use: `.get(ip, False)`. -/
def prev_online_map (s : MonState) : String → Bool :=
  fun ip => ((lookupIp ip s.devices).map Device.online).getD false

/-- The `previous_distances` snapshot (source line 1346):
reading estimated_distance with a None default, absent keys and absent fields both
giving `None`. -/
def prev_dist_map (s : MonState) : String → Option ℚ :=
  fun ip => (lookupIp ip s.devices).bind Device.estimated_distance

/-- The candidate addresses `f"{base}.{i}"` for `i in range(1, 255)`
(source lines 1354–1355). -/
def candidates (env : ScanEnv) : List String :=
  (List.range 254).map (fun i => env.base ++ "." ++ toString (i + 1))

/-- One device of the departure/arrival pass (source lines 1406–1421). -/
def presence_step (env : ScanEnv) (pOn : String → Bool) (st : MonState) (e : String × Device) : MonState :=
  if e.2.monitored then
    if pOn e.1 && !e.2.online then add_alert st env.now e.2 ("departure") none
    else if !(pOn e.1) && e.2.online then add_alert st env.now e.2 ("arrival") none
    else st
  else st

/-- The rows `presence_step` appends for one device, used to state what
the pass emits. -/
def presence_contrib (env : ScanEnv) (pOn : String → Bool) (e : String × Device) : List Row :=
  if e.2.monitored then
    if pOn e.1 && !e.2.online then [alertRow (mkAlert env.now e.2 ("departure") none)]
    else if !(pOn e.1) && e.2.online then [alertRow (mkAlert env.now e.2 ("arrival") none)]
    else []
  else []

/-- The departure/arrival pass over `self.devices.items()` (source lines
1404–1421); `add_alert` never touches the device dictionary, so the
iterated collection is fixed. -/
def presence_pass (env : ScanEnv) (pOn : String → Bool) (s : MonState) : MonState :=
  s.devices.foldl (presence_step env pOn) s

/-- `scan` (source lines 1332–1425): the reentrancy guard, the
previous-cycle snapshots, the online reset, the sweep, the presence pass
when monitoring, and the final flush. -/
def scan (cd : ℚ → Option ℚ) (env : ScanEnv) (s : MonState) : MonState :=
  if s.scanning then s
  else
    let pOn := prev_online_map s
    let pd := prev_dist_map s
    let s1 := clear_online { s with scanning := true }
    let s2 := (candidates env).foldl (scan_host cd env pd) s1
    let s3 := if s2.monitoring then presence_pass env pOn s2 else s2
    save_data { s3 with scanning := false }

/-- The alerts a scan cycle records, read off the append-only attendance
record: the rows present afterwards that were not present before. -/
def scanEmitted (cd : ℚ → Option ℚ) (env : ScanEnv) (s : MonState) : List Row :=
  ((scan cd env s).attendance).drop s.attendance.length

/-- How many attendance rows in `rows` carry the given device IP and
alert type. -/
def countType (rows : List Row) (ip ty : String) : ℕ :=
  rows.countP (fun r => decide (r.ip = ip) && decide (r.type = ty))

/-- The updated entry the sweep leaves for an already-known reachable
host, as a function of the distance mode. -/
def hostUpd (cd : ℚ → Option ℚ) (env : ScanEnv) (dm : Bool) (ip : String) (x : Device) : Device :=
  if dm then
    { x with online := true, last_seen := some env.now,
             rssi := some (env.rssi_of ip), estimated_distance := cd (env.rssi_of ip) }
  else
    { x with online := true, last_seen := some env.now }

/-- The state after the snapshot/reset/sweep phases of `scan` (everything
before the presence pass). -/
def sweepResult (cd : ℚ → Option ℚ) (env : ScanEnv) (s : MonState) : MonState :=
  (candidates env).foldl (scan_host cd env (prev_dist_map s))
    (clear_online { s with scanning := true })

/-- Well-formedness of the device dictionary: IPs key it uniquely, and
the `ip` field of each record is its key — both hold for every dictionary the
program ever builds. -/
def RegistryWF (l : List (String × Device)) : Prop :=
  (l.map Prod.fst).Nodup ∧ ∀ e ∈ l, e.2.ip = e.1

instance RegistryWF.instDecidable (l : List (String × Device)) : Decidable (RegistryWF l) :=
  inferInstanceAs (Decidable ((l.map Prod.fst).Nodup ∧ ∀ e ∈ l, e.2.ip = e.1))

/-- One `record()` call of the Alert Ledger, packaged for iteration:
timestamp, device, type, optional message. -/
def add_alert_call (s : MonState) (c : Timestamp × Device × String × Option String) : MonState :=
  add_alert s c.1 c.2.1 c.2.2.1 c.2.2.2

/-- The attendance row one packaged `record()` call appends. -/
def callRow (c : Timestamp × Device × String × Option String) : Row :=
  alertRow (mkAlert c.1 c.2.1 c.2.2.1 c.2.2.2)

/-! ### Concrete inputs for witnesses and counterexamples -/

def ts0 : Timestamp := { date := "2026-10-12", time := "09:00:00" }

def ip1 : String := "10.0.0.1"

/-- A monitored device that was online in the previous cycle. -/
def dev1 : Device :=
  { ip := ip1, mac := none, hostname := some ("host1"), vendor := none,
    custom_name := none, first_seen := ts0, last_seen := none,
    monitored := true, device_type := "employee", online := true,
    rssi := none, estimated_distance := none }

def state0 : MonState :=
  { devices := [(ip1, dev1)], scanning := false, monitoring := true,
    distance_mode := false, alerts := [], calibration := defaultCalibration,
    saved_devices := [], saved_alerts := [], attendance := [] }

/-- An environment in which no host answers. -/
def env0 : ScanEnv :=
  { base := "10.0.0", ping := fun _ => false, mac_of := fun _ => none,
    hostname_of := fun _ => none, rssi_of := fun _ => -70, now := ts0 }

def cd0 : ℚ → Option ℚ := fun _ => none

/-- An unmonitored device with a stored distance estimate of 10 m
(exactly what `calculate_distance` yields at rssi −60 under the default
calibration). -/
def dev2 : Device :=
  { ip := ip1, mac := none, hostname := some ("host1"), vendor := none,
    custom_name := none, first_seen := ts0, last_seen := some ts0,
    monitored := false, device_type := "employee", online := true,
    rssi := some (-60), estimated_distance := some 10 }

def state2 : MonState :=
  { devices := [(ip1, dev2)], scanning := false, monitoring := true,
    distance_mode := true, alerts := [], calibration := defaultCalibration,
    saved_devices := [], saved_alerts := [], attendance := [] }

/-- An environment in which only `ip1` answers, with a weak signal. -/
def env2 : ScanEnv :=
  { base := "10.0.0", ping := fun ip => decide (ip = ip1), mac_of := fun _ => none,
    hostname_of := fun _ => none, rssi_of := fun _ => -80, now := ts0 }

/-- A distance estimator agreeing with `calculate_distance` of the
default calibration on the RSSI buckets it is consulted at: rssi −80 is
100.0 m exactly. -/
def cd2 : ℚ → Option ℚ := fun r => if r = -80 then some 100 else none

/-- The record the sweep leaves for the unmonitored device of `state2`
once the probe answered with rssi −80: online, fresh `last_seen`, and a
100 m estimate. -/
def dev2Upd : Device :=
  { ip := ip1, mac := none, hostname := some ("host1"), vendor := none,
    custom_name := none, first_seen := ts0, last_seen := some ts0,
    monitored := false, device_type := "employee", online := true,
    rssi := some (-80), estimated_distance := some 100 }

/-- A device whose current distance estimate is 7 m. -/
def dev3 : Device :=
  { dev1 with estimated_distance := some 7, rssi := some (-55) }

/-- An alert recorded earlier about `dev1` (whose distance then was
undefined), now in the ledger of a state where the estimate of the same device
is 7 m. -/
def alert3 : Alert := mkAlert ts0 dev1 ("arrival") none

def state3 : MonState :=
  { devices := [(ip1, dev3)], scanning := false, monitoring := true,
    distance_mode := true, alerts := [alert3], calibration := defaultCalibration,
    saved_devices := [], saved_alerts := [], attendance := [alertRow alert3] }

/-! ### Theorems for the claims -/

/-- Claim C1, counterexample: the claim asserts that the defined distance
`0.0` maps to zone "on-site" and that a defined distance never maps to
"unknown"; but `get_zone` tests `if not distance`, and the float `0.0` is
falsy in Python, so distance `0.0` yields "unknown". -/
theorem getZone_zero_counterexample :
    get_zone (some 0) = "unknown" ∧ get_zone (some 0) ≠ "on-site" := by
  constructor <;> decide

/-- Claim C1 (amended): for every defined distance d other than 0, the
zone is on-site on [0,10), near-site on [10,30), leaving on [30,50) and
away on [50,∞); an undefined distance, or the distance 0.0 (falsy in
Python), yields "unknown"; every defined nonzero distance maps to one of
the four named zones, never to "unknown". -/
theorem getZone_amended_spec (d : ℚ) (hd : d ≠ 0) :
    (0 ≤ d → d < 10 → get_zone (some d) = "on-site") ∧
    (10 ≤ d → d < 30 → get_zone (some d) = "near-site") ∧
    (30 ≤ d → d < 50 → get_zone (some d) = "leaving") ∧
    (50 ≤ d → get_zone (some d) = "away") ∧
    get_zone (some d) ≠ "unknown" ∧
    get_zone none = "unknown" ∧ get_zone (some 0) = "unknown" := by
  simp only [get_zone]
  rw [if_neg hd]
  refine ⟨?_, ?_, ?_, ?_, ?_, by decide, by decide⟩
  · intro _ h2
    rw [if_pos h2]
  · intro h1 h2
    rw [if_neg (by linarith), if_pos h2]
  · intro h1 h2
    rw [if_neg (by linarith), if_neg (by linarith), if_pos h2]
  · intro h1
    rw [if_neg (by linarith), if_neg (by linarith), if_neg (by linarith)]
  · split_ifs <;> decide

/-- Witness for the amended C1 claim at the boundary distances named in
the claim: 9.9, 10.0, 49.9 and 50.0. -/
theorem getZone_amended_spec_witness :
    get_zone (some (99/10)) = "on-site" ∧ get_zone (some 10) = "near-site" ∧
    get_zone (some (499/10)) = "leaving" ∧ get_zone (some 50) = "away" :=
  ⟨(getZone_amended_spec (99/10) (by norm_num)).1 (by norm_num) (by norm_num),
   ((getZone_amended_spec 10 (by norm_num)).2.1 (by norm_num) (by norm_num)),
   ((getZone_amended_spec (499/10) (by norm_num)).2.2.1 (by norm_num) (by norm_num)),
   ((getZone_amended_spec 50 (by norm_num)).2.2.2.1 (by norm_num))⟩

/-- Claim C7: the distance estimate is a pure function of rssi and the
calibration; a nonzero defined rssi yields exactly the formula of the specification, rssi 0 or undefined yields an undefined distance, and with
referenceRSSI −40, pathLossExponent 2.0 and rssi −60 the result is
exactly 10.0 meters. -/
theorem calculate_distance_spec (cal : Calibration) (r : ℚ) (hr : r ≠ 0) :
    calculate_distance cal none = none ∧
    calculate_distance cal (some 0) = none ∧
    calculate_distance cal (some r) =
      some (spec_distance_formula cal.referenceRSSI cal.pathLossExponent r) ∧
    calculate_distance defaultCalibration (some (-60)) = some 10 := by
  refine ⟨rfl, by simp [calculate_distance], ?_, ?_⟩
  · simp [calculate_distance, hr, spec_distance_formula]
  · have hexp : (((defaultCalibration.referenceRSSI : ℝ) - ((-60 : ℚ) : ℝ)) /
        (10 * (defaultCalibration.pathLossExponent : ℝ))) = 1 := by
      norm_num [defaultCalibration]
    have hpow : (10 : ℝ) ^ (((defaultCalibration.referenceRSSI : ℝ) - ((-60 : ℚ) : ℝ)) /
        (10 * (defaultCalibration.pathLossExponent : ℝ))) = 10 := by
      rw [hexp, Real.rpow_one]
    have h100 : pyRound (10 * (10 : ℝ)) = 100 := by
      have : (10 * (10 : ℝ)) = ((100 : ℤ) : ℝ) := by norm_num
      rw [this]
      unfold pyRound
      rw [Int.floor_intCast]
      norm_num
    simp only [calculate_distance]
    rw [if_neg (by norm_num)]
    rw [hpow]
    unfold roundTo1
    rw [h100]
    norm_num

/-- Witness for C7 at the concrete calibration and rssi named in the
claim. -/
theorem calculate_distance_spec_witness :
    calculate_distance defaultCalibration (some (-60)) = some 10 :=
  (calculate_distance_spec defaultCalibration (-60) (by norm_num)).2.2.2

/-! ### Supporting lemmas -/

theorem lookupIp_mapIp_self (ip : String) (f : Device → Device) (d : Device) :
    ∀ l : List (String × Device), lookupIp ip l = some d →
      lookupIp ip (mapIp ip f l) = some (f d) := by
  intro l
  induction l with
  | nil => intro h; exact absurd h (by simp [lookupIp])
  | cons e rest ih =>
      intro h
      by_cases he : e.1 = ip
      · simp only [lookupIp, mapIp, if_pos he] at h ⊢
        rw [Option.some_inj] at h
        rw [h]
      · simp only [lookupIp, mapIp, if_neg he] at h ⊢
        exact ih h

theorem lookupIp_mapIp_ne (ip ip2 : String) (f : Device → Device) (hne : ip2 ≠ ip) :
    ∀ l : List (String × Device), lookupIp ip2 (mapIp ip f l) = lookupIp ip2 l := by
  intro l
  induction l with
  | nil => rfl
  | cons e rest ih =>
      by_cases he : e.1 = ip
      · have he2 : ¬ e.1 = ip2 := by rw [he]; exact fun h => hne h.symm
        simp only [mapIp, if_pos he, lookupIp, if_neg he2]
      · simp only [mapIp, if_neg he, lookupIp]
        by_cases he2 : e.1 = ip2
        · rw [if_pos he2, if_pos he2]
        · rw [if_neg he2, if_neg he2]
          exact ih

theorem keys_mapIp (ip : String) (f : Device → Device) :
    ∀ l : List (String × Device), (mapIp ip f l).map Prod.fst = l.map Prod.fst := by
  intro l
  induction l with
  | nil => rfl
  | cons e rest ih =>
      by_cases he : e.1 = ip
      · simp [mapIp, if_pos he]
      · simp [mapIp, if_neg he, ih]

theorem add_alert_call_alerts_le (s : MonState) (c : Timestamp × Device × String × Option String) :
    (add_alert_call s c).alerts.length ≤ 1000 := by
  simp only [add_alert_call, add_alert, save_data, log_attendance, add_alert_truncated,
    add_alert_inserted]
  exact List.length_take_le _ _

theorem fold_alerts_length_le (calls : List (Timestamp × Device × String × Option String)) :
    ∀ s : MonState, (calls.foldl add_alert_call s).alerts.length ≤ max s.alerts.length 1000 := by
  induction calls with
  | nil => intro s; exact le_max_left _ _
  | cons c cs ih =>
      intro s
      rw [List.foldl_cons]
      refine le_trans (ih (add_alert_call s c)) (le_trans (max_le ?_ le_rfl) (le_max_right _ _))
      exact add_alert_call_alerts_le s c

theorem fold_attendance_eq (calls : List (Timestamp × Device × String × Option String)) :
    ∀ s : MonState, (calls.foldl add_alert_call s).attendance = s.attendance ++ calls.map callRow := by
  induction calls with
  | nil => intro s; simp
  | cons c cs ih =>
      intro s
      rw [List.foldl_cons, ih (add_alert_call s c)]
      simp [add_alert_call, add_alert, save_data, log_attendance, add_alert_truncated,
        add_alert_inserted, callRow]

theorem lookupIp_append_of_some (ip : String) (d : Device) (l2 : List (String × Device)) :
    ∀ l1, lookupIp ip l1 = some d → lookupIp ip (l1 ++ l2) = some d := by
  intro l1
  induction l1 with
  | nil => intro h; exact absurd h (by simp [lookupIp])
  | cons e rest ih =>
      intro h
      by_cases he : e.1 = ip
      · simp only [lookupIp, if_pos he] at h
        simp only [List.cons_append, lookupIp, if_pos he, h]
      · simp only [lookupIp, if_neg he] at h
        simp only [List.cons_append, lookupIp, if_neg he]
        exact ih h

theorem lookupIp_append_of_none (ip : String) (l2 : List (String × Device)) :
    ∀ l1, lookupIp ip l1 = none → lookupIp ip (l1 ++ l2) = lookupIp ip l2 := by
  intro l1
  induction l1 with
  | nil => intro _; rfl
  | cons e rest ih =>
      intro h
      by_cases he : e.1 = ip
      · simp [lookupIp, if_pos he] at h
      · simp only [lookupIp, if_neg he] at h
        simp only [List.cons_append, lookupIp, if_neg he]
        exact ih h

theorem lookupIp_append_single_ne (ip c : String) (v : Device) (hne : c ≠ ip)
    (l : List (String × Device)) :
    lookupIp ip (l ++ [(c, v)]) = lookupIp ip l := by
  cases h : lookupIp ip l with
  | some d => exact lookupIp_append_of_some ip d _ l h
  | none =>
      rw [lookupIp_append_of_none ip _ l h]
      simp [lookupIp, hne]

theorem lookupIp_none_not_mem (ip : String) :
    ∀ l : List (String × Device), lookupIp ip l = none → ip ∉ l.map Prod.fst := by
  intro l
  induction l with
  | nil => intro _ h; simp at h
  | cons e rest ih =>
      intro h hmem
      by_cases he : e.1 = ip
      · simp [lookupIp, if_pos he] at h
      · simp only [lookupIp, if_neg he] at h
        rcases List.mem_cons.mp hmem with h1 | h1
        · exact he h1.symm
        · exact ih h h1

theorem lookupIp_mapVal (ip : String) (f : Device → Device) :
    ∀ l : List (String × Device),
      lookupIp ip (l.map (fun e => (e.1, f e.2))) = (lookupIp ip l).map f := by
  intro l
  induction l with
  | nil => rfl
  | cons e rest ih =>
      by_cases he : e.1 = ip
      · simp [lookupIp, if_pos he]
      · simp only [List.map_cons, lookupIp, if_neg he]
        exact ih

theorem mem_mapIp (ip : String) (f : Device → Device) :
    ∀ l : List (String × Device), ∀ e2 ∈ mapIp ip f l,
      e2 ∈ l ∨ ∃ e ∈ l, e.1 = ip ∧ e2 = (e.1, f e.2) := by
  intro l
  induction l with
  | nil => intro e2 h; exact absurd h (by simp [mapIp])
  | cons e rest ih =>
      intro e2 h2
      by_cases he : e.1 = ip
      · simp only [mapIp, if_pos he] at h2
        rcases List.mem_cons.mp h2 with h3 | h3
        · exact Or.inr ⟨e, List.mem_cons_self _ _, he, h3⟩
        · exact Or.inl (List.mem_cons_of_mem _ h3)
      · simp only [mapIp, if_neg he] at h2
        rcases List.mem_cons.mp h2 with h3 | h3
        · exact Or.inl (h3 ▸ List.mem_cons_self _ _)
        · rcases ih e2 h3 with h4 | ⟨e3, h5, h6, h7⟩
          · exact Or.inl (List.mem_cons_of_mem _ h4)
          · exact Or.inr ⟨e3, List.mem_cons_of_mem _ h5, h6, h7⟩

theorem RegistryWF_mapIp (ip : String) (f : Device → Device) (hf : ∀ x, (f x).ip = x.ip)
    (l : List (String × Device)) (h : RegistryWF l) : RegistryWF (mapIp ip f l) := by
  refine ⟨by rw [keys_mapIp]; exact h.1, ?_⟩
  intro e2 h2
  rcases mem_mapIp ip f l e2 h2 with h3 | ⟨e, h4, _, h6⟩
  · exact h.2 e2 h3
  · rw [h6]
    simp only [hf]
    exact h.2 e h4

theorem RegistryWF_mapVal (f : Device → Device) (hf : ∀ x, (f x).ip = x.ip)
    (l : List (String × Device)) (h : RegistryWF l) :
    RegistryWF (l.map (fun e => (e.1, f e.2))) := by
  constructor
  · have : (l.map (fun e => (e.1, f e.2))).map Prod.fst = l.map Prod.fst := by
      rw [List.map_map]; rfl
    rw [this]; exact h.1
  · intro e2 h2
    rcases List.mem_map.mp h2 with ⟨e, he, hev⟩
    rw [← hev]
    simp only [hf]
    exact h.2 e he

theorem RegistryWF_append_single (ip : String) (v : Device) (hv : v.ip = ip)
    (l : List (String × Device)) (h : RegistryWF l) (hnone : lookupIp ip l = none) :
    RegistryWF (l ++ [(ip, v)]) := by
  constructor
  · rw [List.map_append]
    rw [List.nodup_append]
    refine ⟨h.1, by simp, ?_⟩
    intro a ha hb
    simp only [List.map_cons, List.map_nil, List.mem_singleton] at hb
    rw [hb] at ha
    exact lookupIp_none_not_mem ip l hnone ha
  · intro e he
    rcases List.mem_append.mp he with h1 | h1
    · exact h.2 e h1
    · simp only [List.mem_singleton] at h1
      rw [h1]
      exact hv

/-! #### Frame lemmas for the scan pieces -/

theorem add_alert_devices (s : MonState) (now : Timestamp) (d : Device) (ty : String)
    (msg : Option String) : (add_alert s now d ty msg).devices = s.devices := rfl

theorem add_alert_attendance (s : MonState) (now : Timestamp) (d : Device) (ty : String)
    (msg : Option String) :
    (add_alert s now d ty msg).attendance = s.attendance ++ [alertRow (mkAlert now d ty msg)] := rfl

theorem ensure_device_frame (env : ScanEnv) (s : MonState) (ip : String) :
    (ensure_device env s ip).monitoring = s.monitoring ∧
    (ensure_device env s ip).distance_mode = s.distance_mode ∧
    (ensure_device env s ip).scanning = s.scanning ∧
    (ensure_device env s ip).attendance = s.attendance ∧
    (ensure_device env s ip).alerts = s.alerts := by
  unfold ensure_device
  split <;> exact ⟨rfl, rfl, rfl, rfl, rfl⟩

theorem distance_alert_check_devices (env : ScanEnv) (pd : String → Option ℚ)
    (dist : Option ℚ) (s : MonState) (ip : String) :
    (distance_alert_check env pd dist s ip).devices = s.devices := by
  unfold distance_alert_check
  repeat' split
  all_goals rfl

theorem distance_alert_check_frame (env : ScanEnv) (pd : String → Option ℚ)
    (dist : Option ℚ) (s : MonState) (ip : String) :
    (distance_alert_check env pd dist s ip).monitoring = s.monitoring ∧
    (distance_alert_check env pd dist s ip).distance_mode = s.distance_mode ∧
    (distance_alert_check env pd dist s ip).scanning = s.scanning := by
  unfold distance_alert_check
  repeat' split
  all_goals exact ⟨rfl, rfl, rfl⟩

theorem distance_alert_check_rows (env : ScanEnv) (pd : String → Option ℚ)
    (dist : Option ℚ) (s : MonState) (ip : String) :
    ∃ t, (distance_alert_check env pd dist s ip).attendance = s.attendance ++ t ∧
      ∀ r ∈ t, r.type = "distance" := by
  unfold distance_alert_check
  repeat' split
  all_goals
    first
      | exact ⟨_, add_alert_attendance _ _ _ _ _,
          by intro r hr; rw [List.mem_singleton.mp hr]; rfl⟩
      | exact ⟨[], by simp, by simp⟩

theorem scan_host_frame (cd : ℚ → Option ℚ) (env : ScanEnv) (pd : String → Option ℚ)
    (s : MonState) (c : String) :
    (scan_host cd env pd s c).monitoring = s.monitoring ∧
    (scan_host cd env pd s c).distance_mode = s.distance_mode ∧
    (scan_host cd env pd s c).scanning = s.scanning := by
  have h2 := ensure_device_frame env s c
  unfold scan_host
  split
  · split
    · have h1 := distance_alert_check_frame env pd (cd (env.rssi_of c))
        (set_distance (cd (env.rssi_of c)) env (mark_online env (ensure_device env s c) c) c) c
      exact ⟨h1.1.trans h2.1, h1.2.1.trans h2.2.1, h1.2.2.trans h2.2.2.1⟩
    · exact ⟨h2.1, h2.2.1, h2.2.2.1⟩
  · exact ⟨rfl, rfl, rfl⟩

/-! ### Theorems for claims C3, C4, C6, C8, C9, C10 -/

/-- Claim C3, counterexample: `add_alert` inserts the alert into the
in-memory list *before* `log_attendance` appends the CSV row, so between
the two steps of one call there is a state in which the alert is present
in the readable list while the durable attendance record does not hold it
— here, starting from an empty attendance record, the record is still
empty while the ledger already shows the alert.  The last conjunct pins
down that `add_alert` is exactly this composition, with the CSV append
outside (after) the insertion. -/
theorem add_alert_order_counterexample :
    mkAlert ts0 dev1 ("arrival") none ∈
      (add_alert_inserted state0 (mkAlert ts0 dev1 ("arrival") none)).alerts ∧
    (add_alert_inserted state0 (mkAlert ts0 dev1 ("arrival") none)).attendance = [] ∧
    add_alert state0 ts0 dev1 ("arrival") none =
      save_data (log_attendance (add_alert_truncated
        (add_alert_inserted state0 (mkAlert ts0 dev1 ("arrival") none)))
        (mkAlert ts0 dev1 ("arrival") none)) := by
  refine ⟨?_, rfl, rfl⟩
  exact List.mem_cons_self _ _

/-- Claim C3 (amended): each recording call both inserts the alert into
the in-memory list and appends it to the durable attendance record before
returning, but in that order — list first, CSV second — so an
intermediate state of the call has the alert readable but not yet
durable; when the call returns the alert is in both. -/
theorem add_alert_order_amended (s : MonState) (now : Timestamp) (d : Device)
    (ty : String) (msg : Option String) :
    add_alert s now d ty msg =
      save_data (log_attendance (add_alert_truncated
        (add_alert_inserted s (mkAlert now d ty msg))) (mkAlert now d ty msg)) ∧
    mkAlert now d ty msg ∈ (add_alert_inserted s (mkAlert now d ty msg)).alerts ∧
    (add_alert_inserted s (mkAlert now d ty msg)).attendance = s.attendance ∧
    (add_alert s now d ty msg).attendance = s.attendance ++ [alertRow (mkAlert now d ty msg)] ∧
    mkAlert now d ty msg ∈ (add_alert s now d ty msg).alerts := by
  refine ⟨rfl, List.mem_cons_self _ _, rfl, rfl, ?_⟩
  show mkAlert now d ty msg ∈ (mkAlert now d ty msg :: s.alerts).take 1000
  rw [show (1000 : ℕ) = 999 + 1 from rfl, List.take_succ_cons]
  exact List.mem_cons_self _ _

/-- Claim C4: the in-memory ledger never holds more than 1000 entries no
matter how many alerts are recorded; each recording prepends the new
alert and truncates from the tail; and the durable attendance record
grows by exactly one row per call — every previous row kept in place,
never evicted or rewritten. -/
theorem alert_ledger_bounded (s : MonState) (now : Timestamp) (d : Device) (ty : String)
    (msg : Option String) (calls : List (Timestamp × Device × String × Option String)) :
    (add_alert s now d ty msg).alerts = (mkAlert now d ty msg :: s.alerts).take 1000 ∧
    (add_alert s now d ty msg).alerts.length ≤ 1000 ∧
    (add_alert s now d ty msg).attendance = s.attendance ++ [alertRow (mkAlert now d ty msg)] ∧
    (calls.foldl add_alert_call s).alerts.length ≤ max s.alerts.length 1000 ∧
    (calls.foldl add_alert_call s).attendance = s.attendance ++ calls.map callRow :=
  ⟨rfl, List.length_take_le _ _, rfl, fold_alerts_length_le calls s, fold_attendance_eq calls s⟩

/-- Claim C6: a scan requested while the reentrancy flag `self.scanning`
is set is a no-op: it returns at once and the device registry, the alert
ledger and all durable files are exactly as before. -/
theorem scan_reentrancy_noop (cd : ℚ → Option ℚ) (env : ScanEnv) (s : MonState)
    (h : s.scanning = true) :
    scan cd env s = s ∧
    (scan cd env s).devices = s.devices ∧ (scan cd env s).alerts = s.alerts ∧
    (scan cd env s).attendance = s.attendance ∧
    (scan cd env s).saved_devices = s.saved_devices ∧
    (scan cd env s).saved_alerts = s.saved_alerts := by
  have h1 : scan cd env s = s := by simp [scan, h]
  exact ⟨h1, by rw [h1], by rw [h1], by rw [h1], by rw [h1], by rw [h1]⟩

/-- Witness for C6 on a concrete in-progress state. -/
theorem scan_reentrancy_noop_witness :
    scan cd0 env0 { state0 with scanning := true } = { state0 with scanning := true } :=
  (scan_reentrancy_noop cd0 env0 { state0 with scanning := true } rfl).1

/-- Claim C8: updating an IP that is not a key of the registry is
rejected as not-found and the whole state — registry included — is
returned unchanged, nothing persisted; updating a known IP reports ok. -/
theorem update_device_result (s : MonState) (ip name dtype : String) (mon : Bool) :
    (lookupIp ip s.devices = none → update_device s ip name mon dtype = (s, UpdateResult.not_found)) ∧
    (∀ d, lookupIp ip s.devices = some d → (update_device s ip name mon dtype).2 = UpdateResult.ok) := by
  constructor
  · intro h
    simp [update_device, h]
  · intro d h
    simp [update_device, h]

/-- Witness for C8: a miss on an unknown IP and a hit on a known one. -/
theorem update_device_result_witness :
    update_device state0 ("10.0.0.9") ("x") false ("employee") = (state0, UpdateResult.not_found) ∧
    (update_device state0 ip1 ("x") false ("employee")).2 = UpdateResult.ok :=
  ⟨(update_device_result state0 ("10.0.0.9") ("x") ("employee") false).1 (by decide),
   (update_device_result state0 ip1 ("x") ("employee") false).2 dev1 (by decide)⟩

/-- Claim C9: a successful update rewrites only the `custom_name`,
`monitored` and `device_type` fields of the addressed record (the record
update in the conclusion names exactly those three); every other device,
the key order, the alert ledger and the attendance record stay as they
were. -/
theorem update_device_frame (s : MonState) (ip name dtype : String) (mon : Bool) (d : Device)
    (hd : lookupIp ip s.devices = some d) :
    lookupIp ip (update_device s ip name mon dtype).1.devices =
      some { d with custom_name := some name, monitored := mon, device_type := dtype } ∧
    (∀ ip2, ip2 ≠ ip →
      lookupIp ip2 (update_device s ip name mon dtype).1.devices = lookupIp ip2 s.devices) ∧
    (update_device s ip name mon dtype).1.alerts = s.alerts ∧
    (update_device s ip name mon dtype).1.attendance = s.attendance ∧
    (update_device s ip name mon dtype).1.devices.map Prod.fst = s.devices.map Prod.fst := by
  have hu : (update_device s ip name mon dtype).1 =
      save_data { s with devices := mapIp ip (fun d =>
        { d with custom_name := some name, monitored := mon, device_type := dtype }) s.devices } := by
    simp [update_device, hd]
  rw [hu]
  refine ⟨?_, ?_, rfl, rfl, ?_⟩
  · exact lookupIp_mapIp_self ip _ d s.devices hd
  · intro ip2 h2
    exact lookupIp_mapIp_ne ip ip2 _ h2 s.devices
  · exact keys_mapIp ip _ s.devices

/-- Witness for C9 on a concrete one-device registry. -/
theorem update_device_frame_witness :
    lookupIp ip1 (update_device state0 ip1 ("Alice") false ("visitor")).1.devices =
      some { dev1 with custom_name := some ("Alice"), monitored := false, device_type := "visitor" } ∧
    lookupIp ("10.0.0.9") (update_device state0 ip1 ("Alice") false ("visitor")).1.devices =
      lookupIp ("10.0.0.9") state0.devices ∧
    (update_device state0 ip1 ("Alice") false ("visitor")).1.alerts = state0.alerts :=
  ⟨(update_device_frame state0 ip1 ("Alice") ("visitor") false dev1 (by decide)).1,
   (update_device_frame state0 ip1 ("Alice") ("visitor") false dev1 (by decide)).2.1
     ("10.0.0.9") (by decide),
   (update_device_frame state0 ip1 ("Alice") ("visitor") false dev1 (by decide)).2.2.1⟩

/-- Claim C10: an alert record carries no distance of its own, and the
Distance column of the attendance export is filled from the current
registry at export time — the same alert exports the current estimate,
or an empty cell once the device is gone — while every other column is
the snapshot stored in the alert when it was created. -/
theorem export_distance_current (s : MonState) (a : Alert) (date : String) (q : ℚ)
    (ha : a ∈ s.alerts) (hdate : a.timestamp.date = date)
    (hq : (lookupIp a.ip s.devices).bind Device.estimated_distance = some q) (hq0 : q ≠ 0) :
    export_row s a ∈ export_attendance s date ∧
    (export_row s a).distance = some q ∧
    (∀ s2 : MonState, lookupIp a.ip s2.devices = none → (export_row s2 a).distance = none) ∧
    (export_row s a).time = a.timestamp.time ∧
    (export_row s a).action = a.type.toUpper ∧
    (export_row s a).name = a.device_name ∧
    (export_row s a).device_type = a.device_type ∧
    (export_row s a).ip = a.ip ∧
    (export_row s a).mac = a.mac.getD ("") ∧
    (export_row s a).message = a.message.getD ("") := by
  refine ⟨?_, ?_, ?_, rfl, rfl, rfl, rfl, rfl, rfl, rfl⟩
  · exact List.mem_map_of_mem _ (List.mem_filter.mpr ⟨ha, by simp [hdate]⟩)
  · simp [export_row, hq, hq0]
  · intro s2 h2
    simp [export_row, h2]

/-- Witness for C10: an alert recorded while the distance of the device
was still undefined exports the Distance cell 7 m held by the registry
now. -/
theorem export_distance_current_witness :
    export_row state3 alert3 ∈ export_attendance state3 ("2026-10-12") ∧
    (export_row state3 alert3).distance = some 7 :=
  ⟨(export_distance_current state3 alert3 ("2026-10-12") 7 (by decide) (by decide)
      (by decide) (by decide)).1,
   (export_distance_current state3 alert3 ("2026-10-12") 7 (by decide) (by decide)
      (by decide) (by decide)).2.1⟩

/-! #### Tracking one registry entry through the sweep -/

theorem scan_host_of_ping_false (cd : ℚ → Option ℚ) (env : ScanEnv) (pd : String → Option ℚ)
    (s : MonState) (c : String) (h : env.ping c = false) :
    scan_host cd env pd s c = s := by
  simp [scan_host, h]

theorem scan_host_lookup_ne (cd : ℚ → Option ℚ) (env : ScanEnv) (pd : String → Option ℚ)
    (s : MonState) (c ip : String) (hne : c ≠ ip) :
    lookupIp ip (scan_host cd env pd s c).devices = lookupIp ip s.devices := by
  have hens : lookupIp ip (ensure_device env s c).devices = lookupIp ip s.devices := by
    unfold ensure_device
    split
    · rfl
    · exact lookupIp_append_single_ne ip c _ hne s.devices
  have hmark : lookupIp ip (mark_online env (ensure_device env s c) c).devices
      = lookupIp ip s.devices := by
    unfold mark_online
    rw [lookupIp_mapIp_ne c ip _ hne.symm]
    exact hens
  unfold scan_host
  split
  · split
    · rw [distance_alert_check_devices]
      unfold set_distance
      rw [lookupIp_mapIp_ne c ip _ hne.symm]
      exact hmark
    · exact hmark
  · rfl

theorem scan_host_lookup_self (cd : ℚ → Option ℚ) (env : ScanEnv) (pd : String → Option ℚ)
    (st : MonState) (ip : String) (x : Device) (dm : Bool)
    (h : env.ping ip = true) (hx : lookupIp ip st.devices = some x) (hdm : st.distance_mode = dm) :
    lookupIp ip (scan_host cd env pd st ip).devices = some (hostUpd cd env dm ip x) := by
  have hens : ensure_device env st ip = st := by
    unfold ensure_device
    rw [hx]
  have hmark : lookupIp ip (mark_online env st ip).devices =
      some { x with online := true, last_seen := some env.now } :=
    lookupIp_mapIp_self ip _ x st.devices hx
  have hmdm : (mark_online env st ip).distance_mode = dm := hdm
  unfold scan_host
  rw [if_pos h, hens, hmdm]
  cases dm with
  | true =>
      rw [if_pos rfl]
      rw [distance_alert_check_devices]
      exact lookupIp_mapIp_self ip _ _ _ hmark
  | false =>
      rw [if_neg (by simp)]
      exact hmark

theorem scan_host_WF (cd : ℚ → Option ℚ) (env : ScanEnv) (pd : String → Option ℚ)
    (s : MonState) (c : String) (h : RegistryWF s.devices) :
    RegistryWF (scan_host cd env pd s c).devices := by
  have hens : RegistryWF (ensure_device env s c).devices := by
    unfold ensure_device
    split
    · exact h
    · rename_i hl
      exact RegistryWF_append_single c _ rfl s.devices h hl
  have hmark : RegistryWF (mark_online env (ensure_device env s c) c).devices :=
    RegistryWF_mapIp c (fun d => { d with online := true, last_seen := some env.now })
      (fun x => rfl) _ hens
  unfold scan_host
  split
  · split
    · rw [distance_alert_check_devices]
      exact RegistryWF_mapIp c
        (fun d => { d with rssi := some (env.rssi_of c), estimated_distance := cd (env.rssi_of c) })
        (fun x => rfl) _ hmark
    · exact hmark
  · exact h

theorem scan_host_rows (cd : ℚ → Option ℚ) (env : ScanEnv) (pd : String → Option ℚ)
    (s : MonState) (c : String) :
    ∃ t, (scan_host cd env pd s c).attendance = s.attendance ++ t ∧
      ∀ r ∈ t, r.type = "distance" := by
  unfold scan_host
  split
  · split
    · rcases distance_alert_check_rows env pd (cd (env.rssi_of c))
        (set_distance (cd (env.rssi_of c)) env (mark_online env (ensure_device env s c) c) c) c
        with ⟨t, ht, hty⟩
      refine ⟨t, ?_, hty⟩
      rw [ht]
      have h4 : (set_distance (cd (env.rssi_of c)) env
          (mark_online env (ensure_device env s c) c) c).attendance = s.attendance :=
        (ensure_device_frame env s c).2.2.2.1
      rw [h4]
    · refine ⟨[], ?_, by simp⟩
      have h4 : (mark_online env (ensure_device env s c) c).attendance = s.attendance :=
        (ensure_device_frame env s c).2.2.2.1
      rw [h4, List.append_nil]
  · exact ⟨[], by simp, by simp⟩

theorem hostUpd_idem (cd : ℚ → Option ℚ) (env : ScanEnv) (dm : Bool) (ip : String) (x : Device) :
    hostUpd cd env dm ip (hostUpd cd env dm ip x) = hostUpd cd env dm ip x := by
  cases dm <;> rfl

theorem hostUpd_fields (cd : ℚ → Option ℚ) (env : ScanEnv) (dm : Bool) (ip : String) (x : Device) :
    (hostUpd cd env dm ip x).ip = x.ip ∧ (hostUpd cd env dm ip x).monitored = x.monitored ∧
    (hostUpd cd env dm ip x).online = true := by
  cases dm <;> exact ⟨rfl, rfl, rfl⟩

theorem sweep_frame (cd : ℚ → Option ℚ) (env : ScanEnv) (pd : String → Option ℚ)
    (l : List String) :
    ∀ st : MonState,
      ((l.foldl (scan_host cd env pd) st).monitoring = st.monitoring) ∧
      ((l.foldl (scan_host cd env pd) st).distance_mode = st.distance_mode) ∧
      ((l.foldl (scan_host cd env pd) st).scanning = st.scanning) := by
  induction l with
  | nil => intro st; exact ⟨rfl, rfl, rfl⟩
  | cons c cs ih =>
      intro st
      rw [List.foldl_cons]
      have h1 := ih (scan_host cd env pd st c)
      have h2 := scan_host_frame cd env pd st c
      exact ⟨h1.1.trans h2.1, h1.2.1.trans h2.2.1, h1.2.2.trans h2.2.2⟩

theorem sweep_WF (cd : ℚ → Option ℚ) (env : ScanEnv) (pd : String → Option ℚ)
    (l : List String) :
    ∀ st, RegistryWF st.devices → RegistryWF ((l.foldl (scan_host cd env pd) st).devices) := by
  induction l with
  | nil => intro st h; exact h
  | cons c cs ih =>
      intro st h
      rw [List.foldl_cons]
      exact ih _ (scan_host_WF cd env pd st c h)

theorem sweep_rows (cd : ℚ → Option ℚ) (env : ScanEnv) (pd : String → Option ℚ)
    (l : List String) :
    ∀ st, ∃ t, (l.foldl (scan_host cd env pd) st).attendance = st.attendance ++ t ∧
      ∀ r ∈ t, r.type = "distance" := by
  induction l with
  | nil => intro st; exact ⟨[], by simp, by simp⟩
  | cons c cs ih =>
      intro st
      rcases scan_host_rows cd env pd st c with ⟨t1, h1, hty1⟩
      rcases ih (scan_host cd env pd st c) with ⟨t2, h2, hty2⟩
      refine ⟨t1 ++ t2, ?_, ?_⟩
      · rw [List.foldl_cons, h2, h1, List.append_assoc]
      · intro r hr
        rcases List.mem_append.mp hr with h3 | h3
        · exact hty1 r h3
        · exact hty2 r h3

theorem sweep_lookup_ping_false (cd : ℚ → Option ℚ) (env : ScanEnv) (pd : String → Option ℚ)
    (ip : String) (h : env.ping ip = false) (l : List String) :
    ∀ st, lookupIp ip (l.foldl (scan_host cd env pd) st).devices = lookupIp ip st.devices := by
  induction l with
  | nil => intro st; rfl
  | cons c cs ih =>
      intro st
      rw [List.foldl_cons, ih]
      by_cases hc : c = ip
      · rw [hc, scan_host_of_ping_false cd env pd st ip h]
      · exact scan_host_lookup_ne cd env pd st c ip hc

theorem sweep_lookup_stable (cd : ℚ → Option ℚ) (env : ScanEnv) (pd : String → Option ℚ)
    (ip : String) (y : Device) (dm : Bool) (h : env.ping ip = true)
    (hidem : hostUpd cd env dm ip y = y) (l : List String) :
    ∀ st, st.distance_mode = dm → lookupIp ip st.devices = some y →
      lookupIp ip (l.foldl (scan_host cd env pd) st).devices = some y := by
  induction l with
  | nil => intro st _ hy; exact hy
  | cons c cs ih =>
      intro st hdm hy
      rw [List.foldl_cons]
      refine ih _ ((scan_host_frame cd env pd st c).2.1.trans hdm) ?_
      by_cases hc : c = ip
      · rw [hc, scan_host_lookup_self cd env pd st ip y dm h hy hdm, hidem]
      · rw [scan_host_lookup_ne cd env pd st c ip hc]
        exact hy

theorem sweep_lookup_ping_true (cd : ℚ → Option ℚ) (env : ScanEnv) (pd : String → Option ℚ)
    (ip : String) (x : Device) (dm : Bool) (h : env.ping ip = true) (l : List String) :
    ∀ st, ip ∈ l → st.distance_mode = dm → lookupIp ip st.devices = some x →
      lookupIp ip (l.foldl (scan_host cd env pd) st).devices =
        some (hostUpd cd env dm ip x) := by
  induction l with
  | nil => intro st hmem; exact absurd hmem (List.not_mem_nil ip)
  | cons c cs ih =>
      intro st hmem hdm hx
      rw [List.foldl_cons]
      by_cases hc : c = ip
      · subst hc
        exact sweep_lookup_stable cd env pd c (hostUpd cd env dm c x) dm h
          (hostUpd_idem cd env dm c x) cs _
          ((scan_host_frame cd env pd st c).2.1.trans hdm)
          (scan_host_lookup_self cd env pd st c x dm h hx hdm)
      · have hmem2 : ip ∈ cs := by
          rcases List.mem_cons.mp hmem with h3 | h3
          · exact absurd h3.symm hc
          · exact h3
        refine ih _ hmem2 ((scan_host_frame cd env pd st c).2.1.trans hdm) ?_
        rw [scan_host_lookup_ne cd env pd st c ip hc]
        exact hx

/-! #### The presence pass and the emitted rows -/

theorem presence_step_attendance (env : ScanEnv) (pOn : String → Bool) (st : MonState)
    (e : String × Device) :
    (presence_step env pOn st e).attendance = st.attendance ++ presence_contrib env pOn e := by
  unfold presence_step presence_contrib
  repeat' split
  all_goals
    first
      | exact add_alert_attendance _ _ _ _ _
      | simp

theorem presence_step_devices (env : ScanEnv) (pOn : String → Bool) (st : MonState)
    (e : String × Device) : (presence_step env pOn st e).devices = st.devices := by
  unfold presence_step
  repeat' split
  all_goals rfl

theorem presence_fold_attendance (env : ScanEnv) (pOn : String → Bool)
    (l : List (String × Device)) :
    ∀ st, (l.foldl (presence_step env pOn) st).attendance =
      st.attendance ++ l.flatMap (presence_contrib env pOn) := by
  induction l with
  | nil => intro st; simp
  | cons e es ih =>
      intro st
      rw [List.foldl_cons, ih, presence_step_attendance, List.flatMap_cons, List.append_assoc]

theorem presence_fold_devices (env : ScanEnv) (pOn : String → Bool)
    (l : List (String × Device)) :
    ∀ st, (l.foldl (presence_step env pOn) st).devices = st.devices := by
  induction l with
  | nil => intro st; rfl
  | cons e es ih =>
      intro st
      rw [List.foldl_cons, ih, presence_step_devices]

theorem presence_contrib_ip (env : ScanEnv) (pOn : String → Bool) (e : String × Device) :
    ∀ r ∈ presence_contrib env pOn e, r.ip = e.2.ip := by
  unfold presence_contrib
  repeat' split
  all_goals intro r hr
  · rw [List.mem_singleton.mp hr]; rfl
  · rw [List.mem_singleton.mp hr]; rfl
  · simp at hr
  · simp at hr

theorem presence_contrib_unmonitored (env : ScanEnv) (pOn : String → Bool)
    (e : String × Device) (hmon : e.2.monitored = false) :
    presence_contrib env pOn e = [] := by
  unfold presence_contrib
  rw [hmon]
  simp

/-! #### Counting rows -/

theorem countType_append (l1 l2 : List Row) (ip ty : String) :
    countType (l1 ++ l2) ip ty = countType l1 ip ty + countType l2 ip ty :=
  List.countP_append _ _ _

theorem countType_eq_zero_of_ne_ip (rows : List Row) (ip ty : String)
    (h : ∀ r ∈ rows, r.ip ≠ ip) : countType rows ip ty = 0 := by
  unfold countType
  rw [List.countP_eq_zero]
  intro r hr
  simp [h r hr]

theorem countType_eq_zero_of_ne_ty (rows : List Row) (ip ty : String)
    (h : ∀ r ∈ rows, r.type ≠ ty) : countType rows ip ty = 0 := by
  unfold countType
  rw [List.countP_eq_zero]
  intro r hr
  simp [h r hr]

theorem countType_flatMap_zero (env : ScanEnv) (pOn : String → Bool) (ip ty : String)
    (l : List (String × Device)) (h : ∀ e ∈ l, e.2.ip ≠ ip) :
    countType (l.flatMap (presence_contrib env pOn)) ip ty = 0 := by
  unfold countType
  rw [List.countP_eq_zero]
  intro r hr
  rcases List.mem_flatMap.mp hr with ⟨e, he, hre⟩
  have h2 := presence_contrib_ip env pOn e r hre
  simp [h2, h e he]

theorem registry_split (ip : String) (v : Device) :
    ∀ l : List (String × Device), (l.map Prod.fst).Nodup → lookupIp ip l = some v →
      ∃ l1 l2, l = l1 ++ (ip, v) :: l2 ∧ (∀ e ∈ l1, e.1 ≠ ip) ∧ (∀ e ∈ l2, e.1 ≠ ip) := by
  intro l
  induction l with
  | nil => intro _ h; exact absurd h (by simp [lookupIp])
  | cons e rest ih =>
      intro hnd h
      have hnd1 : (e.1 :: rest.map Prod.fst).Nodup := by
        rw [List.map_cons] at hnd
        exact hnd
      have hnd2 := List.nodup_cons.mp hnd1
      by_cases he : e.1 = ip
      · simp only [lookupIp, if_pos he] at h
        rw [Option.some_inj] at h
        have he2 : e = (ip, v) := by rw [← he, ← h]
        refine ⟨[], rest, by rw [he2]; rfl, by simp, ?_⟩
        intro e2 h2 hip
        exact hnd2.1 (by rw [he, ← hip]; exact List.mem_map_of_mem Prod.fst h2)
      · simp only [lookupIp, if_neg he] at h
        rcases ih hnd2.2 h with ⟨l1, l2, heq, h1, h2⟩
        refine ⟨e :: l1, l2, by rw [heq]; rfl, ?_, h2⟩
        intro e2 h3
        rcases List.mem_cons.mp h3 with h4 | h4
        · rw [h4]; exact he
        · exact h1 e2 h4

/-! #### Putting the scan together -/

theorem scan_eq (cd : ℚ → Option ℚ) (env : ScanEnv) (s : MonState) (h : s.scanning = false) :
    scan cd env s = save_data
      { (if (sweepResult cd env s).monitoring
          then presence_pass env (prev_online_map s) (sweepResult cd env s)
          else sweepResult cd env s) with scanning := false } := by
  unfold scan sweepResult
  rw [if_neg (by simp [h])]

theorem sweepResult_monitoring (cd : ℚ → Option ℚ) (env : ScanEnv) (s : MonState) :
    (sweepResult cd env s).monitoring = s.monitoring :=
  (sweep_frame cd env (prev_dist_map s) (candidates env)
    (clear_online { s with scanning := true })).1

theorem sweepResult_distance_mode (cd : ℚ → Option ℚ) (env : ScanEnv) (s : MonState) :
    (sweepResult cd env s).distance_mode = s.distance_mode :=
  (sweep_frame cd env (prev_dist_map s) (candidates env)
    (clear_online { s with scanning := true })).2.1

theorem sweepResult_WF (cd : ℚ → Option ℚ) (env : ScanEnv) (s : MonState)
    (h : RegistryWF s.devices) : RegistryWF (sweepResult cd env s).devices :=
  sweep_WF cd env (prev_dist_map s) (candidates env) (clear_online { s with scanning := true })
    (RegistryWF_mapVal (fun d => { d with online := false }) (fun _ => rfl) s.devices h)

theorem lookupIp_clear (ip : String) :
    ∀ l : List (String × Device),
      lookupIp ip (l.map (fun e => (e.1, { e.2 with online := false }))) =
        (lookupIp ip l).map (fun d => { d with online := false }) := by
  intro l
  induction l with
  | nil => rfl
  | cons e rest ih =>
      by_cases he : e.1 = ip
      · simp only [List.map_cons, lookupIp, if_pos he]
        rfl
      · simp only [List.map_cons, lookupIp, if_neg he]
        exact ih

theorem clear_lookup (s : MonState) (ip : String) (d : Device)
    (hd : lookupIp ip s.devices = some d) :
    lookupIp ip (clear_online { s with scanning := true }).devices =
      some { d with online := false } := by
  have h1 : (clear_online { s with scanning := true }).devices =
      s.devices.map (fun e => (e.1, { e.2 with online := false })) := rfl
  rw [h1, lookupIp_clear, hd]
  rfl

theorem sweepResult_lookup_ping_false (cd : ℚ → Option ℚ) (env : ScanEnv) (s : MonState)
    (ip : String) (d : Device) (hping : env.ping ip = false)
    (hd : lookupIp ip s.devices = some d) :
    lookupIp ip (sweepResult cd env s).devices = some { d with online := false } := by
  have h1 : lookupIp ip (sweepResult cd env s).devices =
      lookupIp ip (clear_online { s with scanning := true }).devices :=
    sweep_lookup_ping_false cd env (prev_dist_map s) ip hping (candidates env) _
  rw [h1]
  exact clear_lookup s ip d hd

theorem sweepResult_lookup_ping_true (cd : ℚ → Option ℚ) (env : ScanEnv) (s : MonState)
    (ip : String) (d : Device) (hping : env.ping ip = true) (hmem : ip ∈ candidates env)
    (hd : lookupIp ip s.devices = some d) :
    lookupIp ip (sweepResult cd env s).devices =
      some (hostUpd cd env s.distance_mode ip { d with online := false }) :=
  sweep_lookup_ping_true cd env (prev_dist_map s) ip { d with online := false }
    s.distance_mode hping (candidates env) (clear_online { s with scanning := true })
    hmem rfl (clear_lookup s ip d hd)

theorem prev_online_eq (s : MonState) (ip : String) (d : Device)
    (hd : lookupIp ip s.devices = some d) : prev_online_map s ip = d.online := by
  unfold prev_online_map
  rw [hd]
  rfl

theorem scanEmitted_decomp (cd : ℚ → Option ℚ) (env : ScanEnv) (s : MonState)
    (hs : s.scanning = false) :
    ∃ t, scanEmitted cd env s = t ++
        (if s.monitoring = true
          then (sweepResult cd env s).devices.flatMap (presence_contrib env (prev_online_map s))
          else []) ∧
      ∀ r ∈ t, r.type = "distance" := by
  rcases sweep_rows cd env (prev_dist_map s) (candidates env)
    (clear_online { s with scanning := true }) with ⟨t, ht, hty⟩
  have ht2 : (sweepResult cd env s).attendance = s.attendance ++ t := ht
  refine ⟨t, ?_, hty⟩
  unfold scanEmitted
  rw [scan_eq cd env s hs, sweepResult_monitoring]
  by_cases hm : s.monitoring = true
  · rw [if_pos hm, if_pos hm]
    have h3 : (save_data { presence_pass env (prev_online_map s) (sweepResult cd env s)
        with scanning := false }).attendance =
        (sweepResult cd env s).attendance ++
          (sweepResult cd env s).devices.flatMap (presence_contrib env (prev_online_map s)) :=
      presence_fold_attendance env (prev_online_map s) (sweepResult cd env s).devices
        (sweepResult cd env s)
    rw [h3, ht2, List.append_assoc, List.drop_left]
  · rw [if_neg hm, if_neg hm]
    have h3 : (save_data { sweepResult cd env s with scanning := false }).attendance =
        s.attendance ++ t := ht2
    rw [h3, List.drop_left, List.append_nil]

theorem scanEmitted_count_eq (cd : ℚ → Option ℚ) (env : ScanEnv) (s : MonState)
    (ip0 : String) (d2 : Device) (ty : String)
    (hs : s.scanning = false) (hm : s.monitoring = true)
    (hWF2 : RegistryWF (sweepResult cd env s).devices)
    (hlk : lookupIp ip0 (sweepResult cd env s).devices = some d2)
    (htyp : ty = "departure" ∨ ty = "arrival") :
    countType (scanEmitted cd env s) ip0 ty =
      countType (presence_contrib env (prev_online_map s) (ip0, d2)) ip0 ty := by
  rcases scanEmitted_decomp cd env s hs with ⟨t, ht, htdist⟩
  rw [ht, if_pos hm, countType_append]
  have h0 : countType t ip0 ty = 0 := by
    refine countType_eq_zero_of_ne_ty t ip0 ty ?_
    intro r hr
    rw [htdist r hr]
    rcases htyp with h | h <;> rw [h] <;> decide
  rcases registry_split ip0 d2 (sweepResult cd env s).devices hWF2.1 hlk
    with ⟨l1, l2, heq, h1, h2⟩
  have hv1 : ∀ e ∈ l1, e.2.ip ≠ ip0 := by
    intro e he
    rw [hWF2.2 e (by rw [heq]; exact List.mem_append_left _ he)]
    exact h1 e he
  have hv2 : ∀ e ∈ l2, e.2.ip ≠ ip0 := by
    intro e he
    rw [hWF2.2 e (by rw [heq]; exact List.mem_append_right _ (List.mem_cons_of_mem _ he))]
    exact h2 e he
  rw [heq, List.flatMap_append, List.flatMap_cons, countType_append, countType_append]
  rw [h0, countType_flatMap_zero env _ ip0 ty l1 hv1, countType_flatMap_zero env _ ip0 ty l2 hv2]
  omega

theorem countType_contrib_self (env : ScanEnv) (pOn : String → Bool) (ip0 : String)
    (d2 : Device) (hip : d2.ip = ip0) (hmon : d2.monitored = true) :
    (pOn ip0 = true → d2.online = false →
      countType (presence_contrib env pOn (ip0, d2)) ip0 ("departure") = 1 ∧
      countType (presence_contrib env pOn (ip0, d2)) ip0 ("arrival") = 0) ∧
    (pOn ip0 = false → d2.online = true →
      countType (presence_contrib env pOn (ip0, d2)) ip0 ("arrival") = 1 ∧
      countType (presence_contrib env pOn (ip0, d2)) ip0 ("departure") = 0) := by
  have hdep : ("departure" : String) ≠ "arrival" := by decide
  constructor
  · intro h1 h2
    have hc : presence_contrib env pOn (ip0, d2) =
        [alertRow (mkAlert env.now d2 ("departure") none)] := by
      unfold presence_contrib
      simp [hmon, h1, h2]
    rw [hc]
    constructor
    · simp [countType, List.countP_cons, alertRow, mkAlert, hip]
    · simp [countType, List.countP_cons, alertRow, mkAlert, hdep]
  · intro h1 h2
    have hc : presence_contrib env pOn (ip0, d2) =
        [alertRow (mkAlert env.now d2 ("arrival") none)] := by
      unfold presence_contrib
      simp [hmon, h1, h2]
    rw [hc]
    constructor
    · simp [countType, List.countP_cons, alertRow, mkAlert, hip]
    · simp [countType, List.countP_cons, alertRow, mkAlert, hdep.symm]

theorem sweep_lookup_not_mem (cd : ℚ → Option ℚ) (env : ScanEnv) (pd : String → Option ℚ)
    (ip : String) (l : List String) :
    ∀ st, ip ∉ l →
      lookupIp ip (l.foldl (scan_host cd env pd) st).devices = lookupIp ip st.devices := by
  induction l with
  | nil => intro st _; rfl
  | cons c cs ih =>
      intro st hmem
      rw [List.foldl_cons]
      have hc : c ≠ ip := fun h => hmem (h ▸ List.mem_cons_self c cs)
      rw [ih _ (fun h => hmem (List.mem_cons_of_mem c h))]
      exact scan_host_lookup_ne cd env pd st c ip hc

theorem scan_devices_eq (cd : ℚ → Option ℚ) (env : ScanEnv) (s : MonState)
    (hs : s.scanning = false) :
    (scan cd env s).devices = (sweepResult cd env s).devices := by
  rw [scan_eq cd env s hs]
  by_cases hm : (sweepResult cd env s).monitoring = true
  · rw [if_pos hm]
    exact presence_fold_devices env (prev_online_map s) (sweepResult cd env s).devices
      (sweepResult cd env s)
  · rw [if_neg hm]
    rfl

theorem sweep_all_false (cd : ℚ → Option ℚ) (env : ScanEnv) (pd : String → Option ℚ) :
    ∀ l : List String, (∀ c ∈ l, env.ping c = false) →
      ∀ st, l.foldl (scan_host cd env pd) st = st := by
  intro l
  induction l with
  | nil => intro _ st; rfl
  | cons c cs ih =>
      intro h st
      rw [List.foldl_cons, scan_host_of_ping_false cd env pd st c (h c (List.mem_cons_self c cs))]
      exact ih (fun c2 hc2 => h c2 (List.mem_cons_of_mem c hc2)) st

set_option maxRecDepth 100000 in
theorem env2_candidates_split : candidates env2 = ip1 :: (candidates env2).drop 1 := by decide

set_option maxRecDepth 100000 in
theorem env2_rest_ping_false : ∀ c ∈ (candidates env2).drop 1, env2.ping c = false := by decide

/-- In the counterexample environment only the first candidate answers,
so the sweep is the single `scan_host` step at `ip1`. -/
theorem env2_sweep_single : sweepResult cd2 env2 state2 =
    scan_host cd2 env2 (prev_dist_map state2) (clear_online { state2 with scanning := true }) ip1 := by
  unfold sweepResult
  rw [env2_candidates_split, List.foldl_cons]
  exact sweep_all_false cd2 env2 (prev_dist_map state2) _ env2_rest_ping_false _

set_option maxRecDepth 100000 in
/-- Evaluating that one step: the previous 10 m estimate and the fresh
100 m estimate differ by more than 10 m and change zone, so the step
records a distance alert for the (unmonitored) device. -/
theorem env2_scan_host_step :
    scan_host cd2 env2 (prev_dist_map state2) (clear_online { state2 with scanning := true }) ip1 =
      add_alert (set_distance (some 100) env2
          (mark_online env2 (clear_online { state2 with scanning := true }) ip1) ip1)
        ts0 dev2Upd ("distance")
        (some (distance_message ip1 dev2Upd ("near-site") ("away") 10 100)) := by
  have h90 : (100:ℚ) - (10:ℚ) = 90 := by norm_num
  have hlt : ((10:ℚ) < pyAbs ((100:ℚ) - (10:ℚ))) := by
    rw [h90]
    norm_num [pyAbs]
  have hne : ("near-site" : String) ≠ "away" := by decide
  simp only [scan_host, distance_alert_check]
  norm_num [ensure_device, mark_online, set_distance, clear_online, prev_dist_map, lookupIp,
    mapIp, truthyQ, state2, dev2, env2, cd2, List.map_cons, List.map_nil, h90, hlt,
    pyAbs, get_zone, dev2Upd, ip1, ts0, hne]

/-! ### Theorems for claims C2 and C5 -/

set_option maxRecDepth 100000 in
/-- Claim C2, counterexample: the claim says an unmonitored device never
has an alert of any type recorded for it, but the distance-change check
of the sweep tests `self.monitoring` and never the per-device `monitored`
flag — here the only device is unmonitored, yet one distance alert is
recorded for it by one scan cycle. -/
theorem scan_unmonitored_counterexample :
    (lookupIp ip1 state2.devices).map Device.monitored = some false ∧
    countType (scanEmitted cd2 env2 state2) ip1 ("distance") = 1 := by
  constructor
  · rfl
  · unfold scanEmitted
    rw [scan_eq cd2 env2 state2 rfl, env2_sweep_single, env2_scan_host_step]
    decide

/-- Claim C2 (amended): an unmonitored device never has an *arrival* or
*departure* alert recorded for it by a scan cycle, whatever the
monitoring and distance-mode flags — but a *distance* alert can be (the
distance-change check does not consult `monitored`).  Its reachability is
still updated in the registry: unreachable leaves it offline, reachable
(and probed) marks it online with a fresh `last_seen` and, when distance
mode is active, fresh `rssi`/`estimated_distance` (the `hostUpd` record
in the conclusion). -/
theorem scan_unmonitored_amended (cd : ℚ → Option ℚ) (env : ScanEnv) (s : MonState) (d : Device)
    (hWF : RegistryWF s.devices) (hs : s.scanning = false)
    (hd : lookupIp d.ip s.devices = some d) (hmon : d.monitored = false) :
    countType (scanEmitted cd env s) d.ip ("departure") = 0 ∧
    countType (scanEmitted cd env s) d.ip ("arrival") = 0 ∧
    (env.ping d.ip = false →
      lookupIp d.ip (scan cd env s).devices = some { d with online := false }) ∧
    (env.ping d.ip = true → d.ip ∈ candidates env →
      lookupIp d.ip (scan cd env s).devices =
        some (hostUpd cd env s.distance_mode d.ip { d with online := false })) := by
  have hcnt : ∀ ty, ty = "departure" ∨ ty = "arrival" →
      countType (scanEmitted cd env s) d.ip ty = 0 := by
    intro ty hty
    by_cases hm : s.monitoring = true
    · have hstep : ∃ d2, lookupIp d.ip (sweepResult cd env s).devices = some d2 ∧
          d2.monitored = false := by
        by_cases hping : env.ping d.ip = true
        · by_cases hmem : d.ip ∈ candidates env
          · refine ⟨_, sweepResult_lookup_ping_true cd env s d.ip d hping hmem hd, ?_⟩
            rw [(hostUpd_fields cd env s.distance_mode d.ip { d with online := false }).2.1]
            exact hmon
          · refine ⟨{ d with online := false }, ?_, hmon⟩
            have h5 := sweep_lookup_not_mem cd env (prev_dist_map s) d.ip (candidates env)
              (clear_online { s with scanning := true }) hmem
            exact h5.trans (clear_lookup s d.ip d hd)
        · have hping2 : env.ping d.ip = false := by
            cases hp : env.ping d.ip with
            | false => rfl
            | true => exact absurd hp hping
          exact ⟨{ d with online := false },
            sweepResult_lookup_ping_false cd env s d.ip d hping2 hd, hmon⟩
      rcases hstep with ⟨d2, hlk, hm2⟩
      rw [scanEmitted_count_eq cd env s d.ip d2 ty hs hm (sweepResult_WF cd env s hWF) hlk hty]
      rw [presence_contrib_unmonitored env _ (d.ip, d2) hm2]
      rfl
    · rcases scanEmitted_decomp cd env s hs with ⟨t, ht, htd⟩
      rw [ht, if_neg hm, List.append_nil]
      refine countType_eq_zero_of_ne_ty t d.ip ty ?_
      intro r hr
      rw [htd r hr]
      rcases hty with h | h <;> rw [h] <;> decide
  refine ⟨hcnt ("departure") (Or.inl rfl), hcnt ("arrival") (Or.inr rfl), ?_, ?_⟩
  · intro hping
    rw [scan_devices_eq cd env s hs]
    exact sweepResult_lookup_ping_false cd env s d.ip d hping hd
  · intro hping hmem
    rw [scan_devices_eq cd env s hs]
    exact sweepResult_lookup_ping_true cd env s d.ip d hping hmem hd

/-- Witness for the amended C2 claim: the unmonitored device of the
counterexample state gets no arrival and no departure row. -/
theorem scan_unmonitored_amended_witness :
    countType (scanEmitted cd2 env2 state2) ip1 ("departure") = 0 ∧
    countType (scanEmitted cd2 env2 state2) ip1 ("arrival") = 0 :=
  ⟨(scan_unmonitored_amended cd2 env2 state2 dev2 (by decide) rfl (by decide) rfl).1,
   (scan_unmonitored_amended cd2 env2 state2 dev2 (by decide) rfl (by decide) rfl).2.1⟩

/-- Claim C5: for a monitored device, across two consecutive cycles: if
it was online in the previous snapshot and does not answer the probe now,
the cycle records exactly one departure alert and no arrival alert for it
(one failed probe suffices — no debounce); if it was offline and answers
now, exactly one arrival alert and no departure alert. -/
theorem scan_presence_transitions (cd : ℚ → Option ℚ) (env : ScanEnv) (s : MonState) (d : Device)
    (hWF : RegistryWF s.devices) (hs : s.scanning = false) (hm : s.monitoring = true)
    (hd : lookupIp d.ip s.devices = some d) (hmon : d.monitored = true) :
    (d.online = true → env.ping d.ip = false →
      countType (scanEmitted cd env s) d.ip ("departure") = 1 ∧
      countType (scanEmitted cd env s) d.ip ("arrival") = 0) ∧
    (d.online = false → env.ping d.ip = true → d.ip ∈ candidates env →
      countType (scanEmitted cd env s) d.ip ("arrival") = 1 ∧
      countType (scanEmitted cd env s) d.ip ("departure") = 0) := by
  have hWF2 := sweepResult_WF cd env s hWF
  have hpOn := prev_online_eq s d.ip d hd
  constructor
  · intro honl hping
    have hlk := sweepResult_lookup_ping_false cd env s d.ip d hping hd
    have hco := countType_contrib_self env (prev_online_map s) d.ip { d with online := false }
      rfl hmon
    have h1 := hco.1 (hpOn.trans honl) rfl
    have hc1 := scanEmitted_count_eq cd env s d.ip { d with online := false } ("departure")
      hs hm hWF2 hlk (Or.inl rfl)
    have hc2 := scanEmitted_count_eq cd env s d.ip { d with online := false } ("arrival")
      hs hm hWF2 hlk (Or.inr rfl)
    exact ⟨hc1.trans h1.1, hc2.trans h1.2⟩
  · intro hoff hping hmem
    have hlk := sweepResult_lookup_ping_true cd env s d.ip d hping hmem hd
    have hf := hostUpd_fields cd env s.distance_mode d.ip { d with online := false }
    have hco := countType_contrib_self env (prev_online_map s) d.ip
      (hostUpd cd env s.distance_mode d.ip { d with online := false }) hf.1
      (by rw [hf.2.1]; exact hmon)
    have h1 := hco.2 (hpOn.trans hoff) hf.2.2
    have hc1 := scanEmitted_count_eq cd env s d.ip
      (hostUpd cd env s.distance_mode d.ip { d with online := false }) ("arrival")
      hs hm hWF2 hlk (Or.inr rfl)
    have hc2 := scanEmitted_count_eq cd env s d.ip
      (hostUpd cd env s.distance_mode d.ip { d with online := false }) ("departure")
      hs hm hWF2 hlk (Or.inl rfl)
    exact ⟨hc1.trans h1.1, hc2.trans h1.2⟩

/-- Witness for C5: the monitored online device of `state0` answers no
probe, and the cycle records exactly one departure row and no arrival row
for it. -/
theorem scan_presence_transitions_witness :
    countType (scanEmitted cd0 env0 state0) ip1 ("departure") = 1 ∧
    countType (scanEmitted cd0 env0 state0) ip1 ("arrival") = 0 :=
  (scan_presence_transitions cd0 env0 state0 dev1 (by decide) rfl rfl (by decide) rfl).1 rfl rfl

end NetMon
